import Mathlib

/-!
Verification of the RD-Agent gateway authentication module and of the
Loop Engine (workflow loop) described by the repository specification.

The gateway authentication functions are embedded from
`rdagent/app/gateway/auth.py`.  The Loop Engine
(`rdagent/utils/workflow/loop.py`) is not among the provided sources —
only its unit tests are — so its data model and operations are modelled
from the specification (each such definition carries a doc comment
starting with "Modelled from the spec:").  State is embedded with
association lists standing for Python dictionaries; raised exceptions
are embedded with `Except`.
-/

/-- Association-list lookup, embedding Python dict indexing.
Returns the value bound to the first occurrence of the key. -/
def alookup {α β : Type} [BEq α] : List (α × β) → α → Option β
  | [], _ => none
  | (k, v) :: rest, key => if k == key then some v else alookup rest key

/-- Association-list update, embedding Python dict assignment
(d[key] = v): replaces the first binding of the key, or appends a new
binding when the key is absent. -/
def aset {α β : Type} [BEq α] : List (α × β) → α → β → List (α × β)
  | [], key, v => [(key, v)]
  | (k, w) :: rest, key, v =>
      if k == key then (key, v) :: rest else (k, w) :: aset rest key v

/-- Values stored in a loop instance's output map (`Any` in the
source); covers the integer sentinel and string step results used by
the tests. -/
inductive OutVal where
  | vint (i : Int) : OutVal
  | vstr (s : String) : OutVal
deriving DecidableEq

/-- Reserved key under which a skipped instance's sentinel is stored
(`LoopBase.EXCEPTION_KEY` in the tests). -/
def EXCEPTION_KEY : String := "_EXCEPTION"

/-- Sentinel value written for a skipped loop instance
(`LoopBase.SENTINEL == -1` in the tests). -/
def SENTINEL : OutVal := OutVal.vint (-1)

/-- Modelled from the spec: `LoopTrace` — one record per executed step
of one loop instance ({start, end, step_idx}); timestamps are embedded
as naturals.  The field `end` is a Lean keyword, hence `end_t`. -/
structure LoopTrace where
  start : Nat
  end_t : Nat
  step_idx : Nat
deriving DecidableEq

/-- Modelled from the spec: a `ConcurrencyGate` of the Step Gate Pool.
Object identity (the tests compare gates with `is`) is embedded by a
creation counter `gate_id`; `capacity = none` means unbounded. -/
structure Gate where
  gate_id : Nat
  capacity : Option Nat
deriving DecidableEq

/-- Modelled from the spec: the timer collaborator
(`started`, `IsTimeout()`, `RemainingTime()`). -/
structure Timer where
  started : Bool
  is_timeout : Bool
  remain_time : String
deriving DecidableEq

/-- Modelled from the spec: the error taxonomy visible to the driver.
`termination` is the clean-stop signal `LoopTerminationError`;
`resume` is `LoopResumeError`; `fatal` wraps any unrecovered step
exception kind (exception kinds are embedded as strings). -/
inductive LoopError where
  | termination (msg : String) : LoopError
  | resume (msg : String) : LoopError
  | fatal (kind : String) : LoopError
deriving DecidableEq

/-- Modelled from the spec: the Loop Engine's state
(`LoopBase` of `rdagent/utils/workflow/loop.py`, absent from the
provided sources).  `steps`, `skip_loop_error` and `withdraw_loop_error`
are the per-loop-type class attributes; `loop_idx`, `step_idx`,
`loop_prev_out`, `loop_trace`, `loop_n`, `step_n` are the persisted
`LoopState`; `semaphores` (with its creation counter `sem_next_id`) is
the transient Step Gate Pool and `queue` the transient in-flight work
queue, both excluded from checkpoints. -/
structure LoopEngine where
  steps : List String
  skip_loop_error : List String
  withdraw_loop_error : List String
  loop_idx : Nat
  step_idx : List (Nat × Nat)
  loop_prev_out : List (Nat × List (String × OutVal))
  loop_trace : List (Nat × List LoopTrace)
  loop_n : Option Nat
  step_n : Option Int
  semaphores : List (String × Gate)
  sem_next_id : Nat
  queue : List (Nat × Nat)
deriving DecidableEq

/-- The next step index of instance `i` (`step_idx` is a
`defaultdict(int)` in the source tests: absent keys read as 0). -/
def stepIdxOf (e : LoopEngine) (i : Nat) : Nat :=
  (alookup e.step_idx i).getD 0

/-- The accumulated output map of instance `i` (absent keys read as an
empty map). -/
def prevOutMap (e : LoopEngine) (i : Nat) : List (String × OutVal) :=
  (alookup e.loop_prev_out i).getD []

/-- Look up one step output of instance `i`. -/
def prevOutLookup (e : LoopEngine) (i : Nat) (key : String) : Option OutVal :=
  alookup (prevOutMap e i) key

/-- Write one step output of instance `i` into the engine's
`loop_prev_out` (loop_prev_out[i][key] = v). -/
def setPrevOut (m : List (Nat × List (String × OutVal))) (i : Nat)
    (key : String) (v : OutVal) : List (Nat × List (String × OutVal)) :=
  aset m i (aset ((alookup m i).getD []) key v)

/-- Modelled from the spec: `UnfinishedCount(n)` — the number of loop
indices in [0, n) whose `step_idx` is below `len(Steps)`
(`LoopBase.get_unfinished_loop_cnt`). -/
def get_unfinished_loop_cnt (e : LoopEngine) (n : Nat) : Nat :=
  (List.range n).countP (fun i => decide (stepIdxOf e i < e.steps.length))

/-- Modelled from the spec: the wall-clock part of the Termination
Policy — if the timer collaborator has been started and reports timeout
exceeded, raise `LoopTerminationError("time budget exhausted,
remaining=<value>")`. -/
def check_timer (e : LoopEngine) (t : Timer) : Except LoopError LoopEngine :=
  if t.started && t.is_timeout then
    Except.error
      (LoopError.termination ("time budget exhausted, remaining=" ++ t.remain_time))
  else Except.ok e

/-- Modelled from the spec: the Termination Policy check evaluated on
each step completion (`LoopBase._check_exit_conditions_on_step`).  If
`step_n` is set it is decremented, and the check raises
`LoopTerminationError("step budget exhausted")` exactly when the
decremented value is strictly negative — so a budget of k admits
exactly k passing checks, matching the spec's scenario (budget 1→0
passes, the next check raises) and the unit test; afterwards the timer
condition is checked. -/
def check_exit_conditions_on_step (e : LoopEngine) (t : Timer) :
    Except LoopError LoopEngine :=
  match e.step_n with
  | some n =>
      if n - 1 < 0 then
        Except.error (LoopError.termination "step budget exhausted")
      else check_timer { e with step_n := some (n - 1) } t
  | none => check_timer e t

/-- Iterate the termination-policy check: `check_n_times e t k` is the
result of k successive checks threading the engine state, stopping at
the first raise. -/
def check_n_times (e : LoopEngine) (t : Timer) : Nat → Except LoopError LoopEngine
  | 0 => Except.ok e
  | k + 1 =>
      match check_n_times e t k with
      | Except.ok e2 => check_exit_conditions_on_step e2 t
      | Except.error err => Except.error err

/-- Modelled from the spec: abandoning one loop instance on a skip
error — write the sentinel under the reserved key into the instance's
output map and mark the instance complete
(`step_idx[i] = len(Steps)`). -/
def skip_instance (e : LoopEngine) (i : Nat) : LoopEngine :=
  { e with
    loop_prev_out := setPrevOut e.loop_prev_out i EXCEPTION_KEY SENTINEL,
    step_idx := aset e.step_idx i e.steps.length }

/-- Modelled from the spec: `WithdrawLoop(i)` — discards instance i's
progress; the precise retry/discard policy is left open by the spec, so
the model resets the instance's step index and clears its output and
trace. -/
def withdraw_loop (e : LoopEngine) (i : Nat) : LoopEngine :=
  { e with
    step_idx := aset e.step_idx i 0,
    loop_prev_out := aset e.loop_prev_out i [],
    loop_trace := aset e.loop_trace i [] }

/-- Modelled from the spec: `Dispatch(i)` for instance i, with the
step's outcome supplied as a parameter (either a produced value, or the
kind of the exception it raised) together with the step's start and end
timestamps.  On success the output is merged under the step's name, a
`LoopTrace` is recorded, `step_idx[i]` advances and the Termination
Policy is re-evaluated.  On an exception the Error Classifier applies:
a kind in `skip_loop_error` abandons the instance, a kind in
`withdraw_loop_error` rolls it back, anything else is fatal and
propagates. -/
def dispatch (e : LoopEngine) (i : Nat) (outcome : Except String OutVal)
    (ts te : Nat) (t : Timer) : Except LoopError LoopEngine :=
  match outcome with
  | Except.ok v =>
      let name := e.steps.getD (stepIdxOf e i) ""
      let tr : LoopTrace := { start := ts, end_t := te, step_idx := stepIdxOf e i }
      let e2 : LoopEngine :=
        { e with
          loop_prev_out := setPrevOut e.loop_prev_out i name v,
          loop_trace := aset e.loop_trace i ((alookup e.loop_trace i).getD [] ++ [tr]),
          step_idx := aset e.step_idx i (stepIdxOf e i + 1) }
      check_exit_conditions_on_step e2 t
  | Except.error err =>
      if e.skip_loop_error.contains err then Except.ok (skip_instance e i)
      else if e.withdraw_loop_error.contains err then Except.ok (withdraw_loop e i)
      else Except.error (LoopError.fatal err)

/-- Modelled from the spec: the persisted `LoopState` checkpoint
artifact — exactly the fields `loop_idx`, `step_idx`, `loop_prev_out`,
`loop_trace`, `loop_n`, `step_n`; the transient gate pool and work
queue are excluded. -/
structure LoopStateD where
  loop_idx : Nat
  step_idx : List (Nat × Nat)
  loop_prev_out : List (Nat × List (String × OutVal))
  loop_trace : List (Nat × List LoopTrace)
  loop_n : Option Nat
  step_n : Option Int
deriving DecidableEq

/-- Modelled from the spec: `Dump()` — checkpoint the persisted fields,
excluding the `StepGatePool` and the in-flight work queue. -/
def dump (e : LoopEngine) : LoopStateD :=
  { loop_idx := e.loop_idx
    step_idx := e.step_idx
    loop_prev_out := e.loop_prev_out
    loop_trace := e.loop_trace
    loop_n := e.loop_n
    step_n := e.step_n }

/-- Modelled from the spec: `Load(state)` — restore the persisted
fields onto an engine of the given loop type; the gate pool and work
queue are freshly reconstructed empty. -/
def load (steps skipE wdE : List String) (s : LoopStateD) : LoopEngine :=
  { steps := steps
    skip_loop_error := skipE
    withdraw_loop_error := wdE
    loop_idx := s.loop_idx
    step_idx := s.step_idx
    loop_prev_out := s.loop_prev_out
    loop_trace := s.loop_trace
    loop_n := s.loop_n
    step_n := s.step_n
    semaphores := []
    sem_next_id := 0
    queue := [] }

/-- Modelled from the spec: `Gate(name)` / `LoopBase.get_semaphore` —
the first call for a name creates a gate whose capacity comes from the
step-concurrency configuration (absent means unbounded), except that
the name "record" is forced to capacity 1 regardless of configuration;
subsequent calls return the cached gate and leave the pool unchanged. -/
def get_semaphore (e : LoopEngine) (cfg : List (String × Nat)) (name : String) :
    Gate × LoopEngine :=
  match alookup e.semaphores name with
  | some g => (g, e)
  | none =>
      let cap : Option Nat := if name == "record" then some 1 else alookup cfg name
      let g : Gate := { gate_id := e.sem_next_id, capacity := cap }
      (g, { e with
            semaphores := e.semaphores ++ [(name, g)],
            sem_next_id := e.sem_next_id + 1 })

/-- Whether a member name starts with an underscore — the
private/special marker (name.startswith of Python, embedded on the
string's character list). -/
def startsUnderscore (n : String) : Bool :=
  match n.data with
  | [] => false
  | c :: _ => c == '_'

/-- A step-candidate member name is kept by the registry when it is not
private/special (no leading underscore) and not reserved
(`load`, `dump`). -/
def step_ok (n : String) : Bool :=
  !startsUnderscore n && !(n == "load") && !(n == "dump")

/-- Insert one declared member name into the collected step list:
names failing `step_ok` and names already collected (overrides) are not
re-inserted; new names are appended, preserving declaration order. -/
def add_step (acc : List String) (n : String) : List String :=
  if step_ok n && !acc.contains n then acc ++ [n] else acc

/-- Collect one class's declared member names into an accumulated step
list. -/
def collect_class (acc : List String) (cls : List String) : List String :=
  cls.foldl add_step acc

/-- Modelled from the spec: the Step Registry (`LoopMeta`'s `steps`
computation).  A class is represented by the list of its declared
callable member names in declaration order; a loop type is the chain of
its classes from most-base to most-derived.  Names are collected
base-to-derived, excluding reserved and private/special names,
deduplicating by name while preserving first-declared position. -/
def loop_meta_steps (chain : List (List String)) : List String :=
  chain.foldl collect_class []

/-- Sample loop type of the unit tests: steps A, B, record with a step
budget of one (`step_n = 1`), fresh transient state. -/
def eOne : LoopEngine :=
  { steps := ["A", "B", "record"]
    skip_loop_error := []
    withdraw_loop_error := []
    loop_idx := 0
    step_idx := [(0, 0)]
    loop_prev_out := []
    loop_trace := []
    loop_n := none
    step_n := some 1
    semaphores := []
    sem_next_id := 0
    queue := [] }

/-- The same engine with its step budget already exhausted
(`step_n = 0`). -/
def eZero : LoopEngine :=
  { eOne with step_n := some 0 }

/-- Engine state of the `get_unfinished_loop_cnt` unit test:
`step_idx = \x7b0:1, 1:3, 2:0\x7d` with three steps. -/
def eCnt : LoopEngine :=
  { eOne with step_n := none, step_idx := [(0, 1), (1, 3), (2, 0)] }

/-- Engine of a loop type declaring `skip_loop_error = (SkipThis,)`. -/
def eSkip : LoopEngine :=
  { eOne with step_n := none, skip_loop_error := ["SkipThis"] }

/-- A freshly constructed engine with an empty gate pool. -/
def eFresh : LoopEngine :=
  { eOne with step_n := none }

/-- A timer collaborator that has not been started (no timeout). -/
def t0 : Timer :=
  { started := false, is_timeout := false, remain_time := "01:00:00" }

/-- Embedded from `rdagent/app/gateway/auth.py`: the `AuthManager`
state — whether authentication is enabled and the configured API-key
set (a set of strings, embedded as a duplicate-free list built by
`load_api_keys`). -/
structure AuthManager where
  enabled : Bool
  api_keys : List String
deriving DecidableEq

/-- Set insertion for the API-key set (`set.add`): membership-based,
no duplicates. -/
def addKey (acc : List String) (k : String) : List String :=
  if acc.contains k then acc else acc ++ [k]

/-- Embedded from `AuthManager._load_api_keys`: collect the single key
from RD_AGENT_API_KEY (when set and non-empty — Python truthiness) and
the comma-separated keys from RD_AGENT_API_KEYS, each stripped and kept
only when non-empty.  The environment variables are passed as `Option
String` parameters. -/
def load_api_keys (env_key env_keys : Option String) : List String :=
  let base : List String :=
    match env_key with
    | some k => if k.isEmpty then [] else [k]
    | none => []
  match env_keys with
  | some ks =>
      if ks.isEmpty then base
      else
        (ks.splitOn ",").foldl
          (fun acc k =>
            let k2 := k.trim
            if k2.isEmpty then acc else addKey acc k2)
          base
  | none => base

/-- Embedded from `AuthManager.validate_token`: always true when
authentication is disabled; false for every token when it is enabled
but no API keys are configured; otherwise membership in the key set. -/
def validate_token (m : AuthManager) (token : String) : Bool :=
  if !m.enabled then true
  else if m.api_keys.isEmpty then false
  else m.api_keys.contains token

/-- Outcome of a gateway auth dependency: a resolved user name, or an
HTTPException with its status and error code. -/
inductive AuthResult where
  | ok (user : String) : AuthResult
  | httpError (status : Nat) (code : String) : AuthResult
deriving DecidableEq

/-- Embedded from `get_current_user`: "anonymous" whenever
authentication is disabled; otherwise 401 `missing_api_key` without
credentials, 401 `invalid_api_key` on a token failing validation, and
"authenticated_user" on success.  The bearer credentials are passed as
an `Option String`. -/
def get_current_user (m : AuthManager) (credentials : Option String) : AuthResult :=
  if !m.enabled then AuthResult.ok "anonymous"
  else
    match credentials with
    | none => AuthResult.httpError 401 "missing_api_key"
    | some tok =>
        if !validate_token m tok then AuthResult.httpError 401 "invalid_api_key"
        else AuthResult.ok "authenticated_user"

/-- Embedded from `get_optional_user`: "anonymous" whenever
authentication is disabled; otherwise `none` without credentials,
"authenticated_user" on a valid token, `none` on an invalid one —
never an error. -/
def get_optional_user (m : AuthManager) (credentials : Option String) : Option String :=
  if !m.enabled then some "anonymous"
  else
    match credentials with
    | none => none
    | some tok =>
        if validate_token m tok then some "authenticated_user" else none

/-- Looking up the key just written by `aset` yields the written
value. -/
theorem alookup_aset {α β : Type} [BEq α] [LawfulBEq α]
    (l : List (α × β)) (k : α) (v : β) : alookup (aset l k v) k = some v := by
  induction l with
  | nil => simp [aset, alookup]
  | cons p rest ih =>
      by_cases hk : p.1 == k
      · simp [aset, hk, alookup]
      · simp [aset, hk, alookup, ih]

/-- Appending a binding for an absent key makes it found. -/
theorem alookup_append_single {α β : Type} [BEq α] [LawfulBEq α]
    (l : List (α × β)) (k : α) (v : β) (h : alookup l k = none) :
    alookup (l ++ [(k, v)]) k = some v := by
  induction l with
  | nil => simp [alookup]
  | cons p rest ih =>
      by_cases hk : p.1 == k
      · simp [alookup, hk] at h
      · simp [alookup, hk] at h ⊢
        exact ih h

/-- Claim C9: when authentication is disabled, `get_current_user` and
`get_optional_user` return "anonymous" for every supplied credential —
absent, valid or invalid — and never raise an HTTP error. -/
theorem auth_disabled_returns_anonymous (m : AuthManager) (credentials : Option String)
    (h : m.enabled = false) :
    get_current_user m credentials = AuthResult.ok "anonymous"
    ∧ get_optional_user m credentials = some "anonymous" := by
  constructor <;> simp [get_current_user, get_optional_user, h]

/-- Witness for C9: a disabled manager with a configured key still
answers "anonymous" to an arbitrary (invalid) bearer token. -/
theorem auth_disabled_returns_anonymous_witness :
    get_current_user (AuthManager.mk false ["secret"]) (some "wrong-token")
        = AuthResult.ok "anonymous"
    ∧ get_optional_user (AuthManager.mk false ["secret"]) (some "wrong-token")
        = some "anonymous" :=
  auth_disabled_returns_anonymous (AuthManager.mk false ["secret"]) (some "wrong-token") rfl

/-- Claim C10: with authentication enabled, `validate_token` fails
closed — every token is rejected when the configured key set is empty —
and in general a token is accepted exactly when it belongs to the
configured key set. -/
theorem validate_token_fails_closed (m : AuthManager) (token : String)
    (h : m.enabled = true) :
    (m.api_keys.isEmpty = true → validate_token m token = false)
    ∧ validate_token m token = m.api_keys.contains token := by
  constructor
  · intro he
    simp [validate_token, h, he]
  · by_cases he : m.api_keys.isEmpty
    · rw [List.isEmpty_iff] at he
      simp [validate_token, h, he]
    · simp [validate_token, h, he]

/-- Witness for C10: enabled manager with no configured keys rejects a
token; the membership characterisation agrees. -/
theorem validate_token_fails_closed_witness :
    validate_token (AuthManager.mk true []) "any-token" = false
    ∧ validate_token (AuthManager.mk true []) "any-token"
        = (AuthManager.mk true []).api_keys.contains "any-token" :=
  ⟨(validate_token_fails_closed (AuthManager.mk true []) "any-token" rfl).1 rfl,
   (validate_token_fails_closed (AuthManager.mk true []) "any-token" rfl).2⟩

/-- Claim C4: `Dump()` followed by `Load()` reproduces `loop_idx`,
`step_idx` and `loop_prev_out` exactly, for every engine state, while
the transient gate pool and in-flight work queue are not part of the
dump and come back empty/unpopulated after the load. -/
theorem dump_load_roundtrip (e : LoopEngine) :
    (load e.steps e.skip_loop_error e.withdraw_loop_error (dump e)).loop_idx = e.loop_idx
    ∧ (load e.steps e.skip_loop_error e.withdraw_loop_error (dump e)).step_idx = e.step_idx
    ∧ (load e.steps e.skip_loop_error e.withdraw_loop_error (dump e)).loop_prev_out
        = e.loop_prev_out
    ∧ (load e.steps e.skip_loop_error e.withdraw_loop_error (dump e)).semaphores = []
    ∧ (load e.steps e.skip_loop_error e.withdraw_loop_error (dump e)).queue = [] :=
  ⟨rfl, rfl, rfl, rfl, rfl⟩

/-- Claim C7: before a gate exists for a name, the first `Gate(name)`
call creates and caches it, and a second call with the same name
returns the very gate cached by the first call and leaves the whole
engine (in particular the pool) unchanged — never a fresh gate. -/
theorem gate_cached_instance (e : LoopEngine) (cfg : List (String × Nat)) (name : String)
    (h : alookup e.semaphores name = none) :
    (get_semaphore e cfg name).2.semaphores
        = e.semaphores ++ [(name, (get_semaphore e cfg name).1)]
    ∧ (get_semaphore (get_semaphore e cfg name).2 cfg name).1 = (get_semaphore e cfg name).1
    ∧ (get_semaphore (get_semaphore e cfg name).2 cfg name).2 = (get_semaphore e cfg name).2 := by
  have h2 : alookup (e.semaphores ++ [(name,
      ({ gate_id := e.sem_next_id,
         capacity := if name == "record" then some 1 else alookup cfg name } : Gate))]) name
      = some { gate_id := e.sem_next_id,
               capacity := if name == "record" then some 1 else alookup cfg name } :=
    alookup_append_single e.semaphores name _ h
  refine ⟨?_, ?_, ?_⟩ <;> simp only [get_semaphore, h, h2]

/-- Witness for C7: on a fresh engine, querying the gate for
"test_step" twice returns the cached gate of the first call. -/
theorem gate_cached_instance_witness :
    (get_semaphore eFresh [] "test_step").2.semaphores
        = eFresh.semaphores ++ [("test_step", (get_semaphore eFresh [] "test_step").1)]
    ∧ (get_semaphore (get_semaphore eFresh [] "test_step").2 [] "test_step").1
        = (get_semaphore eFresh [] "test_step").1
    ∧ (get_semaphore (get_semaphore eFresh [] "test_step").2 [] "test_step").2
        = (get_semaphore eFresh [] "test_step").2 :=
  gate_cached_instance eFresh [] "test_step" rfl

/-- Claim C8: whatever the step-concurrency configuration — including
one mapping "record" to a different capacity — the gate created by
`Gate("record")` has capacity exactly 1. -/
theorem record_gate_capacity_one (e : LoopEngine) (cfg : List (String × Nat))
    (h : alookup e.semaphores "record" = none) :
    (get_semaphore e cfg "record").1.capacity = some 1 := by
  simp [get_semaphore, h]

/-- Witness for C8: a configuration asking for capacity 5 on "record"
is overridden — the created gate still has capacity 1. -/
theorem record_gate_capacity_one_witness :
    (get_semaphore eFresh [("record", 5)] "record").1.capacity = some 1 :=
  record_gate_capacity_one eFresh [("record", 5)] rfl

/-- Replacing `step_n` by its own current value leaves the engine
unchanged. -/
theorem set_step_n_self (e : LoopEngine) (v : Option Int) (hs : e.step_n = v) :
    { e with step_n := v } = e := by
  cases e
  simp_all

/-- After j successive passing termination checks (j within the step
budget n, timer quiet), the engine is unchanged except that `step_n`
has been decremented j times. -/
theorem check_n_times_ok (e : LoopEngine) (t : Timer) (n : Int)
    (hs : e.step_n = some n) (ht : (t.started && t.is_timeout) = false) :
    ∀ j : Nat, (j : Int) ≤ n →
      check_n_times e t j = Except.ok { e with step_n := some (n - j) } := by
  intro j
  induction j with
  | zero =>
      intro _
      simp only [check_n_times, Nat.cast_zero, sub_zero]
      rw [set_step_n_self e (some n) hs]
  | succ k ih =>
      intro hle
      have hcast : ((k + 1 : Nat) : Int) = (k : Int) + 1 := by push_cast; ring
      have hk : (k : Int) ≤ n := by omega
      have h1 := ih hk
      simp only [check_n_times, h1]
      simp only [check_exit_conditions_on_step]
      rw [if_neg (by omega : ¬(n - (k : Int) - 1 < 0))]
      simp only [check_timer, ht, Bool.false_eq_true, if_false]
      have h2 : n - (k : Int) - 1 = n - ((k + 1 : Nat) : Int) := by omega
      rw [h2]

/-- Claim C1: with a step budget `step_n = k` (k ≥ 1) and no timeout,
the first k invocations of the termination-policy check return
normally (leaving a budget of 0), and the (k+1)-th invocation raises
`LoopTerminationError("step budget exhausted")`. -/
theorem step_budget_admits_k_checks (e : LoopEngine) (t : Timer) (k : Nat)
    (_hk : 1 ≤ k) (hs : e.step_n = some (k : Int))
    (ht : (t.started && t.is_timeout) = false) :
    check_n_times e t k = Except.ok { e with step_n := some 0 }
    ∧ check_n_times e t (k + 1)
        = Except.error (LoopError.termination "step budget exhausted") := by
  have h1 := check_n_times_ok e t (k : Int) hs ht k (le_refl _)
  have h2 : (k : Int) - (k : Nat) = 0 := by omega
  rw [h2] at h1
  refine ⟨h1, ?_⟩
  simp only [check_n_times, h1]
  simp only [check_exit_conditions_on_step]
  rw [if_pos (by omega : (0 : Int) - 1 < 0)]

/-- Witness for C1: the spec's scenario — steps [A, B, record] with
`step_n = 1`; one check passes, the second raises. -/
theorem step_budget_admits_k_checks_witness :
    check_n_times eOne t0 1 = Except.ok { eOne with step_n := some 0 }
    ∧ check_n_times eOne t0 2
        = Except.error (LoopError.termination "step budget exhausted") :=
  step_budget_admits_k_checks eOne t0 1 (le_refl 1) rfl rfl

/-- Counterexample for C2 as stated: with `step_n = 1` the very first
termination check does not raise — it decrements the budget from 1 to 0
and returns normally. -/
theorem first_check_with_budget_one_passes :
    check_exit_conditions_on_step eOne t0 = Except.ok { eOne with step_n := some 0 } := by
  rfl

/-- Claim C2 (amended): each termination-policy check decrements
`step_n` and raises `LoopTerminationError("step budget exhausted")`
exactly when the decremented value is strictly negative — i.e. when the
budget was already ≤ 0 before the check; with `step_n = 1` the first
check decrements 1 to 0 and passes, and the second check raises. -/
theorem step_budget_check_decrements (e : LoopEngine) (t : Timer) (n : Int)
    (hs : e.step_n = some n) (ht : (t.started && t.is_timeout) = false) :
    (n ≤ 0 →
      check_exit_conditions_on_step e t
        = Except.error (LoopError.termination "step budget exhausted"))
    ∧ (0 < n →
      check_exit_conditions_on_step e t
        = Except.ok { e with step_n := some (n - 1) }) := by
  constructor
  · intro hn
    simp only [check_exit_conditions_on_step, hs]
    rw [if_pos (by omega : n - 1 < 0)]
  · intro hn
    simp only [check_exit_conditions_on_step, hs]
    rw [if_neg (by omega : ¬(n - 1 < 0))]
    simp only [check_timer, ht, Bool.false_eq_true, if_false]

/-- Witness for C2 (amended): an exhausted budget (`step_n = 0`)
raises on the next check. -/
theorem step_budget_check_decrements_witness :
    check_exit_conditions_on_step eZero t0
      = Except.error (LoopError.termination "step budget exhausted") :=
  (step_budget_check_decrements eZero t0 0 rfl rfl).1 (le_refl 0)

/-- Claim C3: an exception whose kind belongs to `skip_loop_error`
does not propagate out of `Dispatch`: the instance is abandoned with
the sentinel -1 written under "_EXCEPTION" in its output map and its
`step_idx` set to `len(Steps)` (complete). -/
theorem skip_error_abandons_instance (e : LoopEngine) (i : Nat) (err : String)
    (ts te : Nat) (t : Timer) (h : e.skip_loop_error.contains err = true) :
    dispatch e i (Except.error err) ts te t = Except.ok (skip_instance e i)
    ∧ prevOutLookup (skip_instance e i) i EXCEPTION_KEY = some SENTINEL
    ∧ stepIdxOf (skip_instance e i) i = e.steps.length := by
  refine ⟨?_, ?_, ?_⟩
  · simp only [dispatch, h]
    rfl
  · simp only [prevOutLookup, prevOutMap, skip_instance, setPrevOut]
    rw [alookup_aset]
    simp only [Option.getD_some]
    rw [alookup_aset]
  · simp only [stepIdxOf, skip_instance]
    rw [alookup_aset]
    rfl

/-- Witness for C3: a loop type with `skip_loop_error = (SkipThis,)`;
a step of instance 0 raising SkipThis is recovered as specified. -/
theorem skip_error_abandons_instance_witness :
    dispatch eSkip 0 (Except.error "SkipThis") 0 1 t0 = Except.ok (skip_instance eSkip 0)
    ∧ prevOutLookup (skip_instance eSkip 0) 0 EXCEPTION_KEY = some SENTINEL
    ∧ stepIdxOf (skip_instance eSkip 0) 0 = eSkip.steps.length :=
  skip_error_abandons_instance eSkip 0 "SkipThis" 0 1 t0 (by decide)

/-- Counting over `List.range` agrees with the cardinality of the
corresponding filtered `Finset.range`. -/
theorem countP_range_eq_card_filter (p : Nat → Prop) [DecidablePred p] (n : Nat) :
    (List.range n).countP (fun i => decide (p i))
      = ((Finset.range n).filter p).card := by
  induction n with
  | zero => simp
  | succ m ih =>
      rw [List.range_succ, List.countP_append, Finset.range_succ, Finset.filter_insert]
      by_cases hp : p m
      · rw [if_pos hp, Finset.card_insert_of_not_mem (by simp)]
        simp [hp, ih]
      · rw [if_neg hp]
        simp [hp, ih]

/-- Claim C6: `UnfinishedCount(n)` equals the cardinality of the set
of loop indices i in [0, n) with `step_idx[i] < len(Steps)`; on the
test state `step_idx = \x7b0:1, 1:3, 2:0\x7d` with three steps and n = 3 it
returns 2. -/
theorem unfinished_count_matches_set_card (e : LoopEngine) (n : Nat) :
    get_unfinished_loop_cnt e n
      = ((Finset.range n).filter (fun i => stepIdxOf e i < e.steps.length)).card
    ∧ get_unfinished_loop_cnt eCnt 3 = 2 := by
  refine ⟨?_, ?_⟩
  · exact countP_range_eq_card_filter (fun i => stepIdxOf e i < e.steps.length) n
  · decide

/-- `add_step` only ever appends: the accumulator is preserved. -/
theorem add_step_extends (acc : List String) (n : String) :
    ∃ t, add_step acc n = acc ++ t := by
  unfold add_step
  by_cases hc : (step_ok n && !acc.contains n) = true
  · exact ⟨[n], by rw [if_pos hc]⟩
  · exact ⟨[], by rw [if_neg hc, List.append_nil]⟩

/-- `collect_class` only ever appends: the accumulator is preserved. -/
theorem collect_class_extends (cls : List String) :
    ∀ acc : List String, ∃ t, collect_class acc cls = acc ++ t := by
  induction cls with
  | nil => exact fun acc => ⟨[], by simp [collect_class]⟩
  | cons n rest ih =>
      intro acc
      obtain ⟨t1, h1⟩ := add_step_extends acc n
      obtain ⟨t2, h2⟩ := ih (add_step acc n)
      refine ⟨t1 ++ t2, ?_⟩
      have hstep : collect_class acc (n :: rest) = collect_class (add_step acc n) rest := rfl
      rw [hstep, h2, h1, List.append_assoc]

/-- `add_step` preserves freedom from duplicates. -/
theorem add_step_nodup (acc : List String) (n : String) (h : acc.Nodup) :
    (add_step acc n).Nodup := by
  unfold add_step
  by_cases hc : (step_ok n && !acc.contains n) = true
  · rw [if_pos hc]
    rcases (Bool.and_eq_true _ _).mp hc with ⟨-, h2⟩
    have hn : n ∉ acc := by simpa using h2
    simp [List.nodup_append, h, hn]
  · rw [if_neg hc]
    exact h

/-- `add_step` preserves the exclusion of reserved and private
names. -/
theorem add_step_all (acc : List String) (n : String) (h : acc.all step_ok = true) :
    (add_step acc n).all step_ok = true := by
  unfold add_step
  by_cases hc : (step_ok n && !acc.contains n) = true
  · rw [if_pos hc]
    rcases (Bool.and_eq_true _ _).mp hc with ⟨h1, -⟩
    simp only [List.all_append, h, Bool.true_and, List.all_cons, List.all_nil, Bool.and_true]
    exact h1
  · rw [if_neg hc]
    exact h

/-- `collect_class` preserves freedom from duplicates. -/
theorem collect_class_nodup (cls : List String) :
    ∀ acc : List String, acc.Nodup → (collect_class acc cls).Nodup := by
  induction cls with
  | nil => exact fun acc h => h
  | cons n rest ih => exact fun acc h => ih (add_step acc n) (add_step_nodup acc n h)

/-- `collect_class` preserves the exclusion of reserved and private
names. -/
theorem collect_class_all (cls : List String) :
    ∀ acc : List String, acc.all step_ok = true → (collect_class acc cls).all step_ok = true := by
  induction cls with
  | nil => exact fun acc h => h
  | cons n rest ih => exact fun acc h => ih (add_step acc n) (add_step_all acc n h)

/-- The full registry fold preserves freedom from duplicates. -/
theorem loop_meta_fold_nodup (chain : List (List String)) :
    ∀ acc : List String, acc.Nodup → (chain.foldl collect_class acc).Nodup := by
  induction chain with
  | nil => exact fun acc h => h
  | cons cls rest ih => exact fun acc h => ih (collect_class acc cls) (collect_class_nodup cls acc h)

/-- The full registry fold preserves the exclusion of reserved and
private names. -/
theorem loop_meta_fold_all (chain : List (List String)) :
    ∀ acc : List String, acc.all step_ok = true
      → (chain.foldl collect_class acc).all step_ok = true := by
  induction chain with
  | nil => exact fun acc h => h
  | cons cls rest ih => exact fun acc h => ih (collect_class acc cls) (collect_class_all cls acc h)

/-- Claim C5: for every loop type, the computed Steps registry keeps
no reserved (`load`, `dump`) or private/special names, contains every
collected name exactly once, and extending the inheritance chain with a
derived class (possibly overriding names) only appends new names — an
override neither moves nor duplicates its first-declared entry.  The
unit tests' two concrete registries evaluate as expected. -/
theorem loop_meta_steps_registry (chain : List (List String)) (cls : List String) :
    (loop_meta_steps chain).all step_ok = true
    ∧ (loop_meta_steps chain).Nodup
    ∧ (∃ tail, loop_meta_steps (chain ++ [cls]) = loop_meta_steps chain ++ tail)
    ∧ loop_meta_steps [["step1", "step2", "_private_method", "load", "dump"]]
        = ["step1", "step2"]
    ∧ loop_meta_steps [["base_step", "common_step"], ["derived_step", "common_step"]]
        = ["base_step", "common_step", "derived_step"] := by
  refine ⟨?_, ?_, ?_, ?_, ?_⟩
  · exact loop_meta_fold_all chain [] rfl
  · exact loop_meta_fold_nodup chain [] List.nodup_nil
  · simpa only [loop_meta_steps, List.foldl_append, List.foldl_cons, List.foldl_nil]
      using collect_class_extends cls (chain.foldl collect_class [])
  · decide
  · decide
